import Mathlib

/-!
Shallow embedding of the manifest-bundle lifecycle of the
managedcluster-import-controller repository.

The embedded code is the `manifestwork` reconciler (functions
`deleteAddonsAndWorks`, `deleteManifestWorks`,
`createKlusterletCRDsManifestWork`, `createKlusterletManifestWork` and the
two ignore selectors), together with the `selfmanagedcluster` reconciler.
External collaborators of that code (the bundle store, the YAML codec, the
addon framework) are embedded as explicit inputs; helper functions of the
repository whose bodies are not part of the provided sources are modelled
from the specification and marked as such in their doc comments.
-/

namespace MCImport

/-! ## Data model -/

/-- Delete-propagation policy of a manifest work (`workv1.DeleteOption`).
The store default, used when the work carries no delete option, is
foreground. -/
inductive PropagationPolicy where
  | foreground
  | orphan
deriving DecidableEq, Repr

/-- One manifest inside a manifest work payload; the raw field is the
JSON document produced by the YAML-to-JSON conversion
(`runtime.RawExtension.Raw`). -/
structure Manifest where
  raw : String
deriving DecidableEq, Repr

/-- A manifest work (`workv1.ManifestWork`): name, namespace, labels,
ordered payload of manifests and the delete-propagation policy. -/
structure ManifestWork where
  name : String
  nspace : String
  labels : List (String × String)
  manifests : List Manifest
  deletePropagation : PropagationPolicy
deriving DecidableEq, Repr

/-- A managed cluster (`clusterv1.ManagedCluster`) as this core consumes
it: its name, the externally computed reachability verdict
(`helpers.IsClusterUnavailable`), the reported Kubernetes version of its
status, whether that version supports the v1 CRD schema
(`helpers.IsAPIExtensionV1Supported`, a pure version predicate embedded
here as a precomputed flag), and its labels. -/
structure ManagedCluster where
  name : String
  unavailable : Bool
  kubeVersion : String
  apiExtensionV1Supported : Bool
  labels : List (String × String)
deriving DecidableEq, Repr

/-- Modelled from the spec: constant `constants.KlusterletSuffix`, the
role suffix of the install bundle name `<target>-klusterlet`; the
constants package is not part of the provided sources. -/
def KlusterletSuffix : String := "klusterlet"

/-- Modelled from the spec: constant `constants.KlusterletCRDsSuffix`,
the role suffix of the definitions bundle name `<target>-crds`. -/
def KlusterletCRDsSuffix : String := "crds"

/-- Modelled from the spec: constant
`constants.HostedKlusterletManifestworkSuffix`; the hosted-mode work name
suffix, distinct from the two core suffixes. -/
def HostedKlusterletSuffix : String := "hosted-klusterlet"

/-- Modelled from the spec: constant
`constants.HostedManagedKubeconfigManifestworkSuffix`; the hosted-mode
kubeconfig work name suffix. -/
def HostedKubeconfigSuffix : String := "hosted-kubeconfig"

/-- Modelled from the spec: constant `constants.KlusterletWorksLabel`,
the well-known label key that marks a core bundle. -/
def KlusterletWorksLabel : String := "import.open-cluster-management.io/klusterlet-works"

/-- Name of the install bundle of a target:
`fmt.Sprintf("%s-%s", clusterName, constants.KlusterletSuffix)`. -/
def klusterletWorkName (clusterName : String) : String :=
  clusterName ++ "-" ++ KlusterletSuffix

/-- Name of the definitions bundle of a target:
`fmt.Sprintf("%s-%s", clusterName, constants.KlusterletCRDsSuffix)`. -/
def klusterletCRDsWorkName (clusterName : String) : String :=
  clusterName ++ "-" ++ KlusterletCRDsSuffix

/-- Name of the hosted-mode klusterlet work of a target. -/
def hostedKlusterletWorkName (clusterName : String) : String :=
  clusterName ++ "-" ++ HostedKlusterletSuffix

/-- Name of the hosted-mode kubeconfig work of a target. -/
def hostedKubeconfigWorkName (clusterName : String) : String :=
  clusterName ++ "-" ++ HostedKubeconfigSuffix

/-- The reachability verdict consumed by the teardown, embedded directly
as the precomputed field of the cluster (`helpers.IsClusterUnavailable`
reads status conditions that are computed externally). -/
def IsClusterUnavailable (cluster : ManagedCluster) : Bool :=
  cluster.unavailable

/-! ## Bundle selectors (from the source of `deleteManifestWorks`) -/

/-- Embedding of `strings.HasPrefix`, computed on the character list of
the string so that it reduces by kernel evaluation. -/
def strStartsWith (s p : String) : Bool :=
  p.data.isPrefixOf s.data

/-- Embedding of `strings.HasSuffix`, computed on the character list of
the string. -/
def strEndsWith (s p : String) : Bool :=
  p.data.isSuffixOf s.data

/-- The selector closure `ignoreKlusterletAndAddons` from
`deleteManifestWorks`: a work is ignored when its name is the klusterlet
work name, the klusterlet CRDs work name, one of the two hosted-mode work
names, or matches one of the addon naming conventions; every other work
is not ignored. -/
def ignoreKlusterletAndAddons (clusterName : String) (w : ManifestWork) : Bool :=
  (w.name == klusterletWorkName clusterName) ||
  (w.name == klusterletCRDsWorkName clusterName) ||
  (w.name == hostedKlusterletWorkName clusterName) ||
  (w.name == hostedKubeconfigWorkName clusterName) ||
  (strStartsWith w.name (w.nspace ++ "-klusterlet-addon")) ||
  (strStartsWith w.name "addon-" && strEndsWith w.name "-deploy") ||
  (strStartsWith w.name "addon-" && strEndsWith w.name "-pre-delete")

/-- The selector closure `ignoreKlusterlet` from `deleteManifestWorks`:
a work is ignored when it is one of the two core klusterlet works. -/
def ignoreKlusterlet (clusterName : String) (w : ManifestWork) : Bool :=
  (w.name == klusterletWorkName clusterName) ||
  (w.name == klusterletCRDsWorkName clusterName)

/-! ## Bundle-store operations as recorded effects -/

/-- A deletion request issued against the bundle store; `force` is true
for the force-delete entry points (finalizers stripped) and false for a
plain graceful delete. -/
structure DeleteOp where
  nspace : String
  name : String
  force : Bool
deriving DecidableEq, Repr

/-- Modelled from the spec: `helpers.ForceDeleteAllManifestWorks` (body
not in the provided sources) issues an unconditional best-effort force
delete for every work of the given set, independent of classification. -/
def ForceDeleteAllManifestWorks (works : List ManifestWork) : List DeleteOp :=
  works.map (fun w => ⟨w.nspace, w.name, true⟩)

/-- Modelled from the spec: `helpers.DeleteManifestWorkWithSelector`
(body not in the provided sources; the call-site comment reads: delete
works that do not include klusterlet works and klusterlet addon works).
It issues a graceful delete for every work of the set that the ignore
predicate does not ignore. -/
def DeleteManifestWorkWithSelector (clusterName : String) (works : List ManifestWork)
    (ignoreWork : String → ManifestWork → Bool) : List DeleteOp :=
  (works.filter (fun w => !ignoreWork clusterName w)).map (fun w => ⟨w.nspace, w.name, false⟩)

/-- Modelled from the spec: `helpers.NoPendingManifestWorks` (body not in
the provided sources) re-lists the works of the target namespace and
reports whether every listed work is ignored by the given predicate,
i.e. whether no non-ignored work is still pending. -/
def NoPendingManifestWorks (clusterName : String) (store : List ManifestWork)
    (ignoreWork : String → ManifestWork → Bool) : Bool :=
  store.all (fun w => ignoreWork clusterName w)

/-- Store lookup used for `client.Get` of a single manifest work; `none`
embeds a NotFound answer. -/
def findManifestWork (store : List ManifestWork) (nspace name : String) : Option ManifestWork :=
  store.find? (fun w => w.nspace == nspace && w.name == name)

/-- External answers consumed by one teardown pass: the result of
`helpers.NoManagedClusterAddons` (error or boolean), the store contents
observed when the pass re-lists or gets works after the selector step
(deletion of a work with finalizers is asynchronous, so the snapshot
passed in and the mid-pass store are distinct inputs), and the result of
`helpers.DeleteManagedClusterAddons` (an error or success). -/
structure TeardownEnv where
  noAddons : Except String Bool
  storeNow : List ManifestWork
  addonsDeleteErr : Option String
deriving Repr

/-- Outcome of one `deleteManifestWorks` pass: the deletion requests it
issued in order, the requeue-after hint in seconds carried by the
returned `reconcile.Result`, and the returned error. -/
structure PassResult where
  deletes : List DeleteOp
  requeueAfterSeconds : Option Nat
  err : Option String
deriving DecidableEq, Repr

/-- Embedding of `deleteManifestWorks` from the `manifestwork`
reconciler: empty snapshot returns at once; an unavailable cluster takes
the force path deleting every work; otherwise the selector step deletes
the non-klusterlet non-addon works, then the pass waits on addon
convergence (requeue after 10 seconds), then on pending non-klusterlet
works (plain return), and finally deletes the klusterlet work when it is
present, or force-deletes the klusterlet CRDs work when the klusterlet
work is absent from the store. -/
def deleteManifestWorks (env : TeardownEnv) (cluster : ManagedCluster)
    (works : List ManifestWork) : PassResult :=
  if works.isEmpty then ⟨[], none, none⟩
  else if IsClusterUnavailable cluster then
    ⟨ForceDeleteAllManifestWorks works, none, none⟩
  else
    let selDeletes := DeleteManifestWorkWithSelector cluster.name works ignoreKlusterletAndAddons
    match env.noAddons with
    | .error e => ⟨selDeletes, none, some e⟩
    | .ok noAddons =>
      if !noAddons then ⟨selDeletes, some 10, none⟩
      else if !NoPendingManifestWorks cluster.name env.storeNow ignoreKlusterlet then
        ⟨selDeletes, none, none⟩
      else
        match findManifestWork env.storeNow cluster.name (klusterletWorkName cluster.name) with
        | none =>
          ⟨selDeletes ++ [⟨cluster.name, klusterletCRDsWorkName cluster.name, true⟩], none, none⟩
        | some kw =>
          ⟨selDeletes ++ [⟨kw.nspace, kw.name, false⟩], none, none⟩

/-- Outcome of one `deleteAddonsAndWorks` pass: deletion requests, the
requeue hint, and the list of errors joined by the aggregate that the
function returns. -/
structure AddonsWorksResult where
  deletes : List DeleteOp
  requeueAfterSeconds : Option Nat
  errs : List String
deriving DecidableEq, Repr

/-- Embedding of `deleteAddonsAndWorks` from the `manifestwork`
reconciler: it first requests addon deletion, records a failure without
stopping, then runs `deleteManifestWorks` and returns its result together
with the multi-line aggregate of both errors. -/
def deleteAddonsAndWorks (env : TeardownEnv) (cluster : ManagedCluster)
    (works : List ManifestWork) : AddonsWorksResult :=
  let errs0 : List String :=
    match env.addonsDeleteErr with
    | some e => [e]
    | none => []
  let r := deleteManifestWorks env cluster works
  let errs1 : List String :=
    match r.err with
    | some e => errs0 ++ [e]
    | none => errs0
  ⟨r.deletes, r.requeueAfterSeconds, errs1⟩

/-! ## Bundle builder (from `createKlusterletCRDsManifestWork` and
`createKlusterletManifestWork`) -/

/-- A raw YAML document, embedded as its list of lines. -/
abbrev RawYaml := List String

/-- The external YAML-to-JSON codec (`yaml.YAMLToJSON` of the ghodss
library), embedded as an explicit input of the builders; an error answer
embeds a malformed document encoding. -/
structure YamlCodec where
  toJSON : RawYaml → Except String String

/-- The document separator line of concatenated YAML documents. -/
def yamlSeparatorLine : String := "---"

/-- Modelled from the spec: `helpers.SplitYamls` (body not in the
provided sources) splits a concatenated install document at each document
separator, returning the ordered sequence of documents. -/
def SplitYamls (raw : RawYaml) : List RawYaml :=
  raw.splitOn yamlSeparatorLine

/-- The import secret: a key/value payload; lookup of a missing key
yields the empty value, as a Go map does. -/
structure ImportSecret where
  data : List (String × RawYaml)
deriving DecidableEq, Repr

/-- Lookup in the secret payload (`importSecret.Data[key]`). -/
def secretData (s : ImportSecret) (key : String) : RawYaml :=
  match s.data.find? (fun kv => kv.fst == key) with
  | some kv => kv.snd
  | none => []

/-- Modelled from the spec: key constant
`constants.ImportSecretCRDSV1YamlKey`. -/
def ImportSecretCRDSV1YamlKey : String := "crds.yaml"

/-- Modelled from the spec: key constant
`constants.ImportSecretCRDSV1beta1YamlKey`. -/
def ImportSecretCRDSV1beta1YamlKey : String := "crdsv1beta1.yaml"

/-- Modelled from the spec: key constant
`constants.ImportSecretImportYamlKey`. -/
def ImportSecretImportYamlKey : String := "import.yaml"

/-- Outcome of a builder call: the Go functions return only the built
work and abort via `panic(err)` on a decode failure, so the embedding
has exactly the two outcomes built-value and panic; there is no
error-return channel in their signatures. -/
inductive BuildOutcome (α : Type) where
  | ok (value : α)
  | panicked (msg : String)
deriving DecidableEq, Repr

/-- The schema-version key selection of `createKlusterletCRDsManifestWork`:
v1beta1 when the cluster reports a Kubernetes version that does not
support the v1 CRD schema, v1 otherwise. -/
def crdsKeyFor (cluster : ManagedCluster) : String :=
  if cluster.kubeVersion ≠ "" && !cluster.apiExtensionV1Supported then
    ImportSecretCRDSV1beta1YamlKey
  else
    ImportSecretCRDSV1YamlKey

/-- Embedding of `createKlusterletCRDsManifestWork`: convert the selected
CRDs document and build the single-manifest definitions bundle; a decode
failure panics. -/
def createKlusterletCRDsManifestWork (ext : YamlCodec) (cluster : ManagedCluster)
    (importSecret : ImportSecret) : BuildOutcome ManifestWork :=
  match ext.toJSON (secretData importSecret (crdsKeyFor cluster)) with
  | .error e => .panicked e
  | .ok jsonData =>
    .ok { name := klusterletCRDsWorkName cluster.name
          nspace := cluster.name
          labels := [(KlusterletWorksLabel, "true")]
          manifests := [⟨jsonData⟩]
          deletePropagation := .foreground }

/-- The conversion loop of `createKlusterletManifestWork`: convert each
split document in order, panicking at the first decode failure. -/
def buildManifests (ext : YamlCodec) (yamls : List RawYaml) : BuildOutcome (List Manifest) :=
  match yamls with
  | [] => .ok []
  | y :: rest =>
    match ext.toJSON y with
    | .error e => .panicked e
    | .ok j =>
      match buildManifests ext rest with
      | .ok ms => .ok (⟨j⟩ :: ms)
      | .panicked e => .panicked e

/-- Embedding of `createKlusterletManifestWork`: split the concatenated
install document, convert every document in order, and build the install
bundle with the orphan delete-propagation policy; a decode failure
panics. -/
def createKlusterletManifestWork (ext : YamlCodec) (cluster : ManagedCluster)
    (importSecret : ImportSecret) : BuildOutcome ManifestWork :=
  match buildManifests ext (SplitYamls (secretData importSecret ImportSecretImportYamlKey)) with
  | .panicked e => .panicked e
  | .ok manifests =>
    .ok { name := klusterletWorkName cluster.name
          nspace := cluster.name
          labels := [(KlusterletWorksLabel, "true")]
          manifests := manifests
          deletePropagation := .orphan }

/-! ## Self-managed cluster reconciler (from
`selfmanagedcluster_controller.go`) -/

/-- Modelled from the spec: constant `constants.SelfManagedLabel` (the
constants package is not part of the provided sources). -/
def SelfManagedLabel : String := "local-cluster"

/-- Modelled from the spec: constant `constants.AutoImportSecretName`. -/
def AutoImportSecretName : String := "auto-import-secret"

/-- Modelled from the spec: constant `constants.ImportSecretNameSuffix`;
the import secret of a cluster is named `<cluster>-import`. -/
def ImportSecretNameSuffix : String := "import"

/-- Answer of a store `Get`: the object, a NotFound answer, or any other
error. -/
inductive GetOutcome (α : Type) where
  | found (value : α)
  | notFound
  | errored (msg : String)
deriving Repr

/-- Label lookup on a key/value list (`obj.Labels[key]` with the
presence flag of the Go map access). -/
def lookupLabel (labels : List (String × String)) (key : String) : Option String :=
  match labels.find? (fun kv => kv.fst == key) with
  | some kv => some kv.snd
  | none => none

/-- The self-managed check of the reconciler:
`selfManaged, ok := labels[SelfManagedLabel]` followed by
`ok && strings.EqualFold(selfManaged, "true")` (the reconciler skips the
cluster when this is false). -/
def isSelfManaged (cluster : ManagedCluster) : Bool :=
  match lookupLabel cluster.labels SelfManagedLabel with
  | some v => ⟨v.data.map Char.toLower⟩ == ("true" : String)
  | none => false

/-- Label-value test of a manifest work. -/
def hasLabel (w : ManifestWork) (key value : String) : Bool :=
  w.labels.any (fun kv => kv.fst == key && kv.snd == value)

/-- The label-selector list of the reconciler: the works of the target
namespace carrying the klusterlet-works label with value true
(`labels.SelectorFromSet` over `constants.KlusterletWorksLabel: "true"`
restricted to the request namespace). -/
def klusterletLabeledWorks (store : List ManifestWork) (nspace : String) : List ManifestWork :=
  store.filter (fun w => w.nspace == nspace && hasLabel w KlusterletWorksLabel "true")

/-- External answers consumed by one self-managed reconcile pass: the
`Get` of the managed cluster, the `Get` of the auto-import secret, the
`Get` of the import secret, the `List` of the work store (the label
selector is applied by `klusterletLabeledWorks`), and the results of the
two downstream helper calls `ImportManagedClusterFromSecret` and
`UpdateManagedClusterStatus`. -/
structure SelfManagedEnv where
  getCluster : GetOutcome ManagedCluster
  getAutoImportSecret : GetOutcome Unit
  getImportSecret : GetOutcome ImportSecret
  listWorks : Except String (List ManifestWork)
  importErr : Option String
  statusUpdateErr : Option String
deriving Repr

/-- Outcome of one self-managed reconcile pass: whether
`ImportManagedClusterFromSecret` was invoked, the requeue flag and the
requeue-after hint of the returned `reconcile.Result`, and the list of
errors joined by the returned aggregate (empty list embeds a nil
error). -/
structure ReconcileOutcome where
  imported : Bool
  requeue : Bool
  requeueAfterSeconds : Option Nat
  errs : List String
deriving DecidableEq, Repr

/-- Embedding of `ReconcileLocalCluster.Reconcile`: skip when the cluster
is gone or not self-managed or has an auto-import secret or has no import
secret; then list the klusterlet-works-labeled works of the namespace and
wait (plain success) unless exactly 2 are present; otherwise import from
the secret and update the cluster status, aggregating both errors. -/
def selfManagedReconcile (env : SelfManagedEnv) (requestName : String) : ReconcileOutcome :=
  match env.getCluster with
  | .notFound => ⟨false, false, none, []⟩
  | .errored e => ⟨false, false, none, [e]⟩
  | .found mc =>
    if !isSelfManaged mc then ⟨false, false, none, []⟩
    else
      match env.getAutoImportSecret with
      | .found _ => ⟨false, false, none, []⟩
      | .errored e => ⟨false, false, none, [e]⟩
      | .notFound =>
        match env.getImportSecret with
        | .notFound => ⟨false, false, none, []⟩
        | .errored e => ⟨false, false, none, [e]⟩
        | .found _ =>
          match env.listWorks with
          | .error e => ⟨false, false, none, [e]⟩
          | .ok store =>
            if (klusterletLabeledWorks store requestName).length ≠ 2 then
              ⟨false, false, none, []⟩
            else
              let errs :=
                (match env.importErr with
                 | some e => [e]
                 | none => []) ++
                (match env.statusUpdateErr with
                 | some e => [e]
                 | none => [])
              ⟨true, false, none, errs⟩

/-! ## Concrete fixtures for witnesses and counterexamples -/

/-- A bundle unrelated to the klusterlet lifecycle (classified Other). -/
def workOther : ManifestWork := ⟨"foo-other", "t1", [], [], .foreground⟩

/-- The definitions bundle of target t1. -/
def workCRDs : ManifestWork :=
  ⟨"t1-crds", "t1", [(KlusterletWorksLabel, "true")], [], .foreground⟩

/-- The install bundle of target t1. -/
def workKlusterlet : ManifestWork :=
  ⟨"t1-klusterlet", "t1", [(KlusterletWorksLabel, "true")], [], .orphan⟩

/-- An addon bundle of target t1. -/
def workAddon : ManifestWork :=
  ⟨"t1-klusterlet-addon-foo", "t1", [], [], .foreground⟩

/-- A reachable target named t1. -/
def clusterReach : ManagedCluster := ⟨"t1", false, "", true, []⟩

/-- An unreachable target named t1. -/
def clusterUnreach : ManagedCluster := ⟨"t1", true, "", true, []⟩

/-- A reachable self-managed target named t1. -/
def clusterSelf : ManagedCluster := ⟨"t1", false, "", true, [(SelfManagedLabel, "True")]⟩

/-- A test codec: the document consisting of the single line bad is
malformed, every other document converts to its lines joined by
semicolons. -/
def testCodec : YamlCodec :=
  ⟨fun d => if d = ["bad"] then .error "decode failure" else .ok (String.intercalate ";" d)⟩

/-- A secret whose install document is the concatenation of two
well-formed documents, with a well-formed CRDs document. -/
def secretTwoDocs : ImportSecret :=
  ⟨[(ImportSecretImportYamlKey, ["a: 1", "---", "b: 2"]),
    (ImportSecretCRDSV1YamlKey, ["crd: 1"])]⟩

/-- A secret whose CRDs document is malformed. -/
def secretBadCRDs : ImportSecret := ⟨[(ImportSecretCRDSV1YamlKey, ["bad"])]⟩

/-- A secret whose install document is malformed. -/
def secretBadImport : ImportSecret := ⟨[(ImportSecretImportYamlKey, ["bad"])]⟩

/-- The install bundle that the test codec builds from the two-document
secret. -/
def workBuiltInstall : ManifestWork :=
  ⟨"t1-klusterlet", "t1", [(KlusterletWorksLabel, "true")], [⟨"a: 1"⟩, ⟨"b: 2"⟩], .orphan⟩

/-! ## Helper lemmas -/

theorem klusterletWorkName_ne_crdsName (s : String) :
    klusterletWorkName s ≠ klusterletCRDsWorkName s := by
  intro h
  have hl := congrArg String.length h
  simp only [klusterletWorkName, klusterletCRDsWorkName, KlusterletSuffix, KlusterletCRDsSuffix,
    String.length_append, show ("-" : String).length = 1 from rfl,
    show ("klusterlet" : String).length = 10 from rfl,
    show ("crds" : String).length = 4 from rfl] at hl
  omega

theorem mem_selector_deletes {clusterName : String} {works : List ManifestWork}
    {ignoreWork : String → ManifestWork → Bool} {op : DeleteOp}
    (h : op ∈ DeleteManifestWorkWithSelector clusterName works ignoreWork) :
    ∃ w ∈ works, ignoreWork clusterName w = false ∧ op = ⟨w.nspace, w.name, false⟩ := by
  unfold DeleteManifestWorkWithSelector at h
  obtain ⟨w, hw, rfl⟩ := List.mem_map.mp h
  obtain ⟨hmem, hign⟩ := List.mem_filter.mp hw
  exact ⟨w, hmem, by simpa using hign, rfl⟩

theorem selector_op_name_not_crds {clusterName : String} {works : List ManifestWork} {op : DeleteOp}
    (h : op ∈ DeleteManifestWorkWithSelector clusterName works ignoreKlusterletAndAddons) :
    op.name ≠ klusterletCRDsWorkName clusterName := by
  obtain ⟨w, _, hign, rfl⟩ := mem_selector_deletes h
  intro hname
  simp only [ignoreKlusterletAndAddons, Bool.or_eq_false_iff, beq_eq_false_iff_ne] at hign
  exact hign.1.1.1.1.1.2 hname

theorem ignoreKlusterlet_eq_false_of {clusterName : String} {w : ManifestWork}
    (h : ignoreKlusterletAndAddons clusterName w = false) :
    ignoreKlusterlet clusterName w = false := by
  simp only [ignoreKlusterletAndAddons, Bool.or_eq_false_iff] at h
  simp only [ignoreKlusterlet, Bool.or_eq_false_iff]
  exact ⟨h.1.1.1.1.1.1, h.1.1.1.1.1.2⟩

theorem isEmpty_eq_false {works : List ManifestWork} (h : works ≠ []) :
    works.isEmpty = false := by
  cases works with
  | nil => exact absurd rfl h
  | cons a l => rfl

/-! ## Claim theorems -/

/-- C1: for every target whose reachability verdict is Unavailable and
whose current bundle set is non-empty, one invocation of the teardown
entry point issues a force delete for every bundle in the set, regardless
of its classification, and performs no other staged action in that pass
(no further delete, no requeue hint, no error). -/
theorem c1_unavailable_force_deletes_all (env : TeardownEnv) (cluster : ManagedCluster)
    (works : List ManifestWork) (hunavail : cluster.unavailable = true) (hne : works ≠ []) :
    deleteManifestWorks env cluster works =
      ⟨works.map (fun w => ⟨w.nspace, w.name, true⟩), none, none⟩ := by
  simp [deleteManifestWorks, IsClusterUnavailable, hunavail, isEmpty_eq_false hne,
    ForceDeleteAllManifestWorks]

/-- Witness for C1 at a concrete unreachable target with a three-bundle
set of all three classifications. -/
theorem c1_witness :
    deleteManifestWorks ⟨.ok true, [], none⟩ clusterUnreach [workCRDs, workKlusterlet, workOther] =
      ⟨[workCRDs, workKlusterlet, workOther].map (fun w => ⟨w.nspace, w.name, true⟩),
        none, none⟩ :=
  c1_unavailable_force_deletes_all ⟨.ok true, [], none⟩ clusterUnreach
    [workCRDs, workKlusterlet, workOther] rfl (by decide)

/-- C2 counterexample: a reachable target whose bundle set is the single
Other-classified bundle foo-other. The claim states that teardown deletes
no bundle on such a pass; the pass in fact issues a deletion for the
Other bundle in the selector-based step, so its deletion list is not
empty. -/
theorem c2_counterexample :
    (deleteManifestWorks ⟨.ok true, [workOther], none⟩ clusterReach [workOther]).deletes ≠ [] := by
  decide

/-- C2 amended: for every reachable target whose bundle set contains only
Other-classified bundles, teardown issues a graceful delete for every one
of those bundles in the selector-based step; when addon-managed objects
are confirmed gone and those bundles are still observed in the store, the
pass then ends in the indefinite-wait state: no requeue hint and no
error, progress left to external re-triggering. -/
theorem c2_amended_other_bundles_deleted (env : TeardownEnv) (cluster : ManagedCluster)
    (works : List ManifestWork) (hreach : cluster.unavailable = false) (hne : works ≠ [])
    (hother : ∀ w ∈ works, ignoreKlusterletAndAddons cluster.name w = false)
    (haddons : env.noAddons = .ok true) (hstore : env.storeNow = works) :
    deleteManifestWorks env cluster works =
      ⟨works.map (fun w => ⟨w.nspace, w.name, false⟩), none, none⟩ := by
  have hpending : NoPendingManifestWorks cluster.name env.storeNow ignoreKlusterlet = false := by
    rw [hstore]
    cases works with
    | nil => exact absurd rfl hne
    | cons a l =>
      have ha := ignoreKlusterlet_eq_false_of (hother a (List.mem_cons_self a l))
      simp [NoPendingManifestWorks, ha]
  have hsel : DeleteManifestWorkWithSelector cluster.name works ignoreKlusterletAndAddons =
      works.map (fun w => ⟨w.nspace, w.name, false⟩) := by
    unfold DeleteManifestWorkWithSelector
    rw [List.filter_eq_self.mpr (fun w hw => by simp [hother w hw])]
  simp [deleteManifestWorks, IsClusterUnavailable, hreach, isEmpty_eq_false hne, haddons,
    hpending, hsel]

/-- Witness for C2 amended at the concrete input of the counterexample. -/
theorem c2_amended_witness :
    deleteManifestWorks ⟨.ok true, [workOther], none⟩ clusterReach [workOther] =
      ⟨[workOther].map (fun w => ⟨w.nspace, w.name, false⟩), none, none⟩ :=
  c2_amended_other_bundles_deleted ⟨.ok true, [workOther], none⟩ clusterReach [workOther]
    rfl (by decide) (by decide) rfl rfl

/-- C8: for every reachable target on a pass where addon-managed objects
are still reported outstanding (the no-addons query answers false),
teardown deletes no bundle beyond the selector-based step and returns a
requeue-after hint of exactly 10 seconds with no error. -/
theorem c8_wait_for_addons_requeues_ten_seconds (env : TeardownEnv) (cluster : ManagedCluster)
    (works : List ManifestWork) (hreach : cluster.unavailable = false) (hne : works ≠ [])
    (haddons : env.noAddons = .ok false) :
    deleteManifestWorks env cluster works =
      ⟨DeleteManifestWorkWithSelector cluster.name works ignoreKlusterletAndAddons,
        some 10, none⟩ := by
  simp [deleteManifestWorks, IsClusterUnavailable, hreach, isEmpty_eq_false hne, haddons]

/-- Witness for C8 at a concrete reachable target with outstanding
addon-managed objects. -/
theorem c8_witness :
    deleteManifestWorks ⟨.ok false, [workCRDs, workKlusterlet], none⟩ clusterReach
        [workCRDs, workKlusterlet] =
      ⟨DeleteManifestWorkWithSelector clusterReach.name [workCRDs, workKlusterlet]
          ignoreKlusterletAndAddons, some 10, none⟩ :=
  c8_wait_for_addons_requeues_ten_seconds ⟨.ok false, [workCRDs, workKlusterlet], none⟩
    clusterReach [workCRDs, workKlusterlet] rfl (by decide) rfl

/-- C3: on every reachable-target teardown pass, a deletion request named
after the definitions bundle is issued only when the install bundle is
absent from the store observed by the pass; the unreachable force path is
exempt through the reachability hypothesis. -/
theorem c3_crds_deleted_only_when_klusterlet_absent (env : TeardownEnv)
    (cluster : ManagedCluster) (works : List ManifestWork)
    (hreach : cluster.unavailable = false) (op : DeleteOp)
    (hop : op ∈ (deleteManifestWorks env cluster works).deletes)
    (hname : op.name = klusterletCRDsWorkName cluster.name) :
    findManifestWork env.storeNow cluster.name (klusterletWorkName cluster.name) = none := by
  cases hW : works.isEmpty with
  | true =>
    simp [deleteManifestWorks, hW] at hop
  | false =>
    rcases hAdd : env.noAddons with e | nb
    · simp only [deleteManifestWorks, hW, IsClusterUnavailable, hreach, Bool.false_eq_true,
        if_false, hAdd] at hop
      exact absurd hname (selector_op_name_not_crds hop)
    · cases nb with
      | false =>
        simp only [deleteManifestWorks, hW, IsClusterUnavailable, hreach, Bool.false_eq_true,
          if_false, hAdd, Bool.not_false, if_true] at hop
        exact absurd hname (selector_op_name_not_crds hop)
      | true =>
        cases hPend : NoPendingManifestWorks cluster.name env.storeNow ignoreKlusterlet with
        | false =>
          simp only [deleteManifestWorks, hW, IsClusterUnavailable, hreach, Bool.false_eq_true,
            if_false, hAdd, Bool.not_true, hPend, Bool.not_false, if_true] at hop
          exact absurd hname (selector_op_name_not_crds hop)
        | true =>
          rcases hFind : findManifestWork env.storeNow cluster.name
              (klusterletWorkName cluster.name) with _ | kw
          · exact rfl
          · simp only [deleteManifestWorks, hW, IsClusterUnavailable, hreach, Bool.false_eq_true,
              if_false, hAdd, Bool.not_true, hPend, Bool.not_false, if_true, hFind,
              List.mem_append] at hop
            rcases hop with h1 | h2
            · exact absurd hname (selector_op_name_not_crds h1)
            · have hop2 : op = ⟨kw.nspace, kw.name, false⟩ := by simpa using h2
              have hkw : kw.name = klusterletWorkName cluster.name := by
                have hp := List.find?_some hFind
                simp only [Bool.and_eq_true, beq_iff_eq] at hp
                exact hp.2
              rw [hop2] at hname
              exact absurd (hkw ▸ hname) (klusterletWorkName_ne_crdsName cluster.name)

/-- Witness for C3 at a concrete reachable target whose store holds only
the definitions bundle: the pass issues the definitions-bundle delete and
the install bundle is indeed absent. -/
theorem c3_witness :
    (⟨"t1", "t1-crds", true⟩ : DeleteOp) ∈
        (deleteManifestWorks ⟨.ok true, [workCRDs], none⟩ clusterReach [workCRDs]).deletes ∧
      findManifestWork [workCRDs] "t1" (klusterletWorkName "t1") = none :=
  ⟨by decide,
    c3_crds_deleted_only_when_klusterlet_absent ⟨.ok true, [workCRDs], none⟩ clusterReach
      [workCRDs] rfl ⟨"t1", "t1-crds", true⟩ (by decide) rfl⟩

/-- C4: for every reachable target at the final stage (addon-managed
objects gone and no pending non-klusterlet bundle in the store) whose
install bundle is absent while its definitions bundle still exists, the
same pass force-deletes the definitions bundle directly after the
selector step, returning no requeue hint and no error. -/
theorem c4_self_heal_deletes_crds (env : TeardownEnv) (cluster : ManagedCluster)
    (works : List ManifestWork) (hreach : cluster.unavailable = false) (hne : works ≠ [])
    (haddons : env.noAddons = .ok true)
    (hnopending : NoPendingManifestWorks cluster.name env.storeNow ignoreKlusterlet = true)
    (hklgone : findManifestWork env.storeNow cluster.name (klusterletWorkName cluster.name) = none)
    (hcrds : ∃ cw ∈ env.storeNow, cw.name = klusterletCRDsWorkName cluster.name) :
    deleteManifestWorks env cluster works =
      ⟨DeleteManifestWorkWithSelector cluster.name works ignoreKlusterletAndAddons ++
        [⟨cluster.name, klusterletCRDsWorkName cluster.name, true⟩], none, none⟩ := by
  simp [deleteManifestWorks, IsClusterUnavailable, hreach, isEmpty_eq_false hne, haddons,
    hnopending, hklgone]

/-- Witness for C4 at a concrete reachable target whose store holds only
the definitions bundle. -/
theorem c4_witness :
    deleteManifestWorks ⟨.ok true, [workCRDs], none⟩ clusterReach [workCRDs] =
      ⟨DeleteManifestWorkWithSelector clusterReach.name [workCRDs] ignoreKlusterletAndAddons ++
        [⟨clusterReach.name, klusterletCRDsWorkName clusterReach.name, true⟩], none, none⟩ :=
  c4_self_heal_deletes_crds ⟨.ok true, [workCRDs], none⟩ clusterReach [workCRDs] rfl
    (by decide) rfl rfl rfl ⟨workCRDs, by decide, rfl⟩

theorem buildManifests_ok (ext : YamlCodec) (docs : List RawYaml) (conv : RawYaml → String)
    (h : ∀ d ∈ docs, ext.toJSON d = .ok (conv d)) :
    buildManifests ext docs = .ok (docs.map (fun d => ⟨conv d⟩)) := by
  induction docs with
  | nil => rfl
  | cons y rest ih =>
    have hy := h y (List.mem_cons_self y rest)
    have hr := ih (fun d hd => h d (List.mem_cons_of_mem y hd))
    simp [buildManifests, hy, hr]

theorem buildManifests_panics (ext : YamlCodec) (docs : List RawYaml)
    (h : ∃ d ∈ docs, ∃ e, ext.toJSON d = .error e) :
    ∃ e, buildManifests ext docs = .panicked e := by
  induction docs with
  | nil =>
    obtain ⟨d, hd, _⟩ := h
    exact absurd hd (List.not_mem_nil d)
  | cons y rest ih =>
    rcases hy : ext.toJSON y with e | j
    · exact ⟨e, by simp [buildManifests, hy]⟩
    · obtain ⟨d, hd, e, he⟩ := h
      rcases List.mem_cons.mp hd with rfl | hd2
      · rw [hy] at he
        cases he
      · obtain ⟨e2, h2⟩ := ih ⟨d, hd2, e, he⟩
        exact ⟨e2, by simp [buildManifests, hy, h2]⟩

/-- C5 counterexample: a concrete secret whose CRDs document is
malformed. The claim states that the builder fails by returning a decode
error to its caller rather than succeeding or aborting; the Go builders
have no error-return channel in their signatures and call `panic(err)`,
so the embedded outcome at this input is the abort constructor, not a
returned error. -/
theorem c5_counterexample :
    createKlusterletCRDsManifestWork testCodec clusterReach secretBadCRDs =
      .panicked "decode failure" := by
  decide

/-- C5 amended: for every secret payload containing a malformed document
encoding, the bundle-building operation aborts by panicking with the
decode error, rather than succeeding or returning an error value to its
caller: the CRDs builder panics when its selected document is malformed,
and the install builder panics when any split document is malformed. -/
theorem c5_amended_builders_panic_on_malformed :
    (∀ (ext : YamlCodec) (cluster : ManagedCluster) (secret : ImportSecret) (e : String),
      ext.toJSON (secretData secret (crdsKeyFor cluster)) = .error e →
        createKlusterletCRDsManifestWork ext cluster secret = .panicked e) ∧
    (∀ (ext : YamlCodec) (cluster : ManagedCluster) (secret : ImportSecret),
      (∃ d ∈ SplitYamls (secretData secret ImportSecretImportYamlKey),
        ∃ e, ext.toJSON d = .error e) →
        ∃ e, createKlusterletManifestWork ext cluster secret = .panicked e) := by
  constructor
  · intro ext cluster secret e he
    simp [createKlusterletCRDsManifestWork, he]
  · intro ext cluster secret hbad
    obtain ⟨e, hp⟩ := buildManifests_panics ext _ hbad
    exact ⟨e, by simp [createKlusterletManifestWork, hp]⟩

/-- Witness for C5 amended at concrete malformed CRDs and install
documents. -/
theorem c5_amended_witness :
    createKlusterletCRDsManifestWork testCodec clusterUnreach secretBadCRDs =
        .panicked "decode failure" ∧
      ∃ e, createKlusterletManifestWork testCodec clusterReach secretBadImport = .panicked e :=
  ⟨c5_amended_builders_panic_on_malformed.1 testCodec clusterUnreach secretBadCRDs
      "decode failure" rfl,
    c5_amended_builders_panic_on_malformed.2 testCodec clusterReach secretBadImport
      ⟨["bad"], by decide, "decode failure", rfl⟩⟩

/-- C6: for every install document that is the concatenation of N
well-formed documents separated by the document separator (no document
containing the separator itself), the install bundle built from it has a
payload of exactly N manifests, the i-th being the structured conversion
of the i-th source document. -/
theorem c6_install_payload_order_preserved (ext : YamlCodec) (cluster : ManagedCluster)
    (secret : ImportSecret) (docs : List RawYaml) (conv : RawYaml → String)
    (hdata : secretData secret ImportSecretImportYamlKey =
      List.intercalate [yamlSeparatorLine] docs)
    (hne : docs ≠ []) (hnosep : ∀ d ∈ docs, yamlSeparatorLine ∉ d)
    (hconv : ∀ d ∈ docs, ext.toJSON d = .ok (conv d)) :
    createKlusterletManifestWork ext cluster secret =
      .ok { name := klusterletWorkName cluster.name
            nspace := cluster.name
            labels := [(KlusterletWorksLabel, "true")]
            manifests := docs.map (fun d => ⟨conv d⟩)
            deletePropagation := .orphan } := by
  have hsplit : SplitYamls (secretData secret ImportSecretImportYamlKey) = docs := by
    rw [hdata]
    exact List.splitOn_intercalate docs yamlSeparatorLine hnosep hne
  simp [createKlusterletManifestWork, hsplit, buildManifests_ok ext docs conv hconv]

/-- Witness for C6 at a concrete two-document install payload. -/
theorem c6_witness :
    createKlusterletManifestWork testCodec clusterReach secretTwoDocs =
      .ok { name := klusterletWorkName clusterReach.name
            nspace := clusterReach.name
            labels := [(KlusterletWorksLabel, "true")]
            manifests := [["a: 1"], ["b: 2"]].map
              (fun d => ⟨(fun x => String.intercalate ";" x) d⟩)
            deletePropagation := .orphan } :=
  c6_install_payload_order_preserved testCodec clusterReach secretTwoDocs
    [["a: 1"], ["b: 2"]] (fun x => String.intercalate ";" x) (by decide) (by decide)
    (by decide) (by intro d hd; fin_cases hd <;> rfl)

/-- C7: for every target identity and well-formed secret payload (one on
which the builder succeeds), the install bundle has name exactly the
target name followed by the klusterlet suffix, namespace equal to the
target name, the well-known core-bundle label set, and the orphan
delete-propagation policy. -/
theorem c7_install_bundle_identity (ext : YamlCodec) (cluster : ManagedCluster)
    (secret : ImportSecret) (w : ManifestWork)
    (hok : createKlusterletManifestWork ext cluster secret = .ok w) :
    w.name = cluster.name ++ "-" ++ KlusterletSuffix ∧ w.nspace = cluster.name ∧
      w.labels = [(KlusterletWorksLabel, "true")] ∧ w.deletePropagation = .orphan := by
  unfold createKlusterletManifestWork at hok
  rcases hB : buildManifests ext (SplitYamls (secretData secret ImportSecretImportYamlKey))
    with ms | e
  · rw [hB] at hok
    simp only [BuildOutcome.ok.injEq] at hok
    rw [← hok]
    exact ⟨rfl, rfl, rfl, rfl⟩
  · rw [hB] at hok
    cases hok

/-- Witness for C7 at the concrete two-document install payload. -/
theorem c7_witness :
    workBuiltInstall.name = clusterReach.name ++ "-" ++ KlusterletSuffix ∧
      workBuiltInstall.nspace = clusterReach.name ∧
      workBuiltInstall.labels = [(KlusterletWorksLabel, "true")] ∧
      workBuiltInstall.deletePropagation = .orphan :=
  c7_install_bundle_identity testCodec clusterReach secretTwoDocs workBuiltInstall (by decide)

/-- C9: for every deleting target, a failure of the addon-retirement
request does not stop the pass: the bundle-deletion phase still runs and
contributes exactly its deletions and requeue hint, and the returned
aggregate contains the retirement error together with any error of the
bundle-deletion phase. -/
theorem c9_addon_retire_failure_never_blocks_deletion (env : TeardownEnv)
    (cluster : ManagedCluster) (works : List ManifestWork) (e : String)
    (herr : env.addonsDeleteErr = some e) :
    (deleteAddonsAndWorks env cluster works).deletes =
        (deleteManifestWorks env cluster works).deletes ∧
      (deleteAddonsAndWorks env cluster works).requeueAfterSeconds =
        (deleteManifestWorks env cluster works).requeueAfterSeconds ∧
      e ∈ (deleteAddonsAndWorks env cluster works).errs ∧
      ∀ e2, (deleteManifestWorks env cluster works).err = some e2 →
        e2 ∈ (deleteAddonsAndWorks env cluster works).errs := by
  rcases hE : (deleteManifestWorks env cluster works).err with _ | e2 <;>
    simp [deleteAddonsAndWorks, herr, hE]

/-- Witness for C9 at a concrete deleting target whose addon retirement
fails. -/
theorem c9_witness :
    (deleteAddonsAndWorks ⟨.ok false, [workOther], some "retire failed"⟩ clusterReach
          [workOther]).deletes =
        (deleteManifestWorks ⟨.ok false, [workOther], some "retire failed"⟩ clusterReach
          [workOther]).deletes ∧
      (deleteAddonsAndWorks ⟨.ok false, [workOther], some "retire failed"⟩ clusterReach
          [workOther]).requeueAfterSeconds =
        (deleteManifestWorks ⟨.ok false, [workOther], some "retire failed"⟩ clusterReach
          [workOther]).requeueAfterSeconds ∧
      "retire failed" ∈ (deleteAddonsAndWorks ⟨.ok false, [workOther], some "retire failed"⟩
        clusterReach [workOther]).errs ∧
      ∀ e2, (deleteManifestWorks ⟨.ok false, [workOther], some "retire failed"⟩ clusterReach
          [workOther]).err = some e2 →
        e2 ∈ (deleteAddonsAndWorks ⟨.ok false, [workOther], some "retire failed"⟩ clusterReach
          [workOther]).errs :=
  c9_addon_retire_failure_never_blocks_deletion ⟨.ok false, [workOther], some "retire failed"⟩
    clusterReach [workOther] "retire failed" rfl

/-- C10: for every self-managed cluster without an auto-import secret
(and with an existing import secret and a successful list), the reconcile
performs the import exactly when the number of klusterlet-works-labeled
bundles in the target namespace is 2; for any other count it performs
no importing and returns success with no error and no requeue. -/
theorem c10_selfmanaged_import_requires_two_works (env : SelfManagedEnv) (requestName : String)
    (mc : ManagedCluster) (isec : ImportSecret) (store : List ManifestWork)
    (hmc : env.getCluster = .found mc) (hself : isSelfManaged mc = true)
    (hauto : env.getAutoImportSecret = .notFound)
    (himp : env.getImportSecret = .found isec) (hlist : env.listWorks = .ok store) :
    ((selfManagedReconcile env requestName).imported = true ↔
        (klusterletLabeledWorks store requestName).length = 2) ∧
      ((klusterletLabeledWorks store requestName).length ≠ 2 →
        selfManagedReconcile env requestName = ⟨false, false, none, []⟩) := by
  by_cases hlen : (klusterletLabeledWorks store requestName).length = 2 <;>
    simp [selfManagedReconcile, hmc, hself, hauto, himp, hlist, hlen]

/-- Witness for C10 at a concrete self-managed cluster whose namespace
holds the two core labeled bundles. -/
theorem c10_witness :
    ((selfManagedReconcile
          ⟨.found clusterSelf, .notFound, .found ⟨[]⟩, .ok [workCRDs, workKlusterlet],
            none, none⟩ "t1").imported = true ↔
        (klusterletLabeledWorks [workCRDs, workKlusterlet] "t1").length = 2) ∧
      ((klusterletLabeledWorks [workCRDs, workKlusterlet] "t1").length ≠ 2 →
        selfManagedReconcile
          ⟨.found clusterSelf, .notFound, .found ⟨[]⟩, .ok [workCRDs, workKlusterlet],
            none, none⟩ "t1" = ⟨false, false, none, []⟩) :=
  c10_selfmanaged_import_requires_two_works
    ⟨.found clusterSelf, .notFound, .found ⟨[]⟩, .ok [workCRDs, workKlusterlet], none, none⟩
    "t1" clusterSelf ⟨[]⟩ [workCRDs, workKlusterlet] rfl (by decide) rfl rfl rfl

end MCImport
